import Mathlib

/-!
Shallow embedding of the get_headers identity service: data model
(app/models/init), password hashing and JWT handling (app/security.py —
that module's body is entirely commented out, so the hashing and token
primitives are modelled from the spec), the user service
(app/services/user_service.py) and the auth/user endpoints
(app/api/auth.py, app/api/users.py, app/dependencies.py).

Time is abstracted to `Nat` instants, the database to a list of rows in
insertion order, and the audit logging calls (fire-and-forget, never
propagating) are dropped.
-/

namespace GetHeaders

/-- Modelled from the spec: the bcrypt digest produced by passlib (used by
the commented-out app/security.py) embeds a salt and the salted hash of the
password.  The one-way hash is idealised as an injective encoding of the
password, which makes the spec's collision-freeness statements exact. -/
structure Digest where
  salt : Nat
  val : List Nat
deriving DecidableEq

/-- Modelled from the spec: `get_password_hash` (app/security.py, commented
out) — salted one-way transform of the plaintext password. -/
def get_password_hash (salt : Nat) (password : String) : Digest :=
  { salt := salt, val := password.data.map Char.toNat }

/-- Modelled from the spec: `verify_password` (app/security.py, commented
out) — re-hashes the plaintext with the salt embedded in the digest and
compares; a mismatch is an ordinary `false`, never an error. -/
def verify_password (plain_password : String) (hashed_password : Digest) : Bool :=
  get_password_hash hashed_password.salt plain_password == hashed_password

/-- Claims carried by a JWT: the `sub` field of the encoded dict (absent
when the dict had none) and the `exp` expiry instant. -/
structure TokenPayload where
  sub : Option String
  exp : Nat
deriving DecidableEq

/-- Injective-enough numeric code of a string, used by the modelled
signature function. -/
def strCode (s : String) : Nat :=
  s.data.foldl (fun acc c => acc * 1114112 + (c.toNat + 1)) 1

/-- Numeric code of the optional `sub` claim. -/
def subCode : Option String → Nat
  | none => 0
  | some s => strCode s

/-- Modelled from the spec: the keyed signature the jose library computes
over the claims (HS256 with the server secret).  Any concrete deterministic
keyed function serves: a tampered token is by definition one whose embedded
signature differs from the recomputed one. -/
def sign (secret : Nat) (payload : TokenPayload) : Nat :=
  (subCode payload.sub * 18446744073709551616 + payload.exp) * 18446744073709551616 + secret

/-- An encoded JWT: claims plus embedded signature. -/
structure Jwt where
  payload : TokenPayload
  sig : Nat
deriving DecidableEq

/-- Modelled from the spec: `create_access_token` (app/security.py,
commented out) — sets the expiry to now plus `expires_delta` when given,
otherwise now plus the configured `access_token_expire_minutes`, and signs
the claims with the server secret. -/
def create_access_token (secret : Nat) (sub : Option String) (now : Nat)
    (expires_delta : Option Nat) (default_expire : Nat) : Jwt :=
  let expire := now + expires_delta.getD default_expire
  let payload : TokenPayload := { sub := sub, exp := expire }
  { payload := payload, sig := sign secret payload }

/-- Modelled from the spec: `verify_token` (app/security.py, commented out)
— decoding checks the recomputed signature and the expiry, any failure
yielding `none` with no detail, and a surviving token yields its `sub`
claim (`none` when the claim is absent). -/
def verify_token (secret : Nat) (now : Nat) (token : Jwt) : Option String :=
  if token.sig = sign secret token.payload then
    if now > token.payload.exp then none
    else token.payload.sub
  else none

/-- The stored user row (app/models `User` with the `UserBase` fields).
The database-assigned primary key is a `Nat` fixed at insertion;
`created_at` defaults to the creation instant and `updated_at` to null. -/
structure User where
  id : Nat
  email : String
  username : String
  is_active : Bool
  is_superuser : Bool
  hashed_password : Digest
  created_at : Option Nat
  updated_at : Option Nat
deriving DecidableEq

/-- Registration payload (app/models `UserCreate`): the `UserBase` fields —
the `is_active` and `is_superuser` flags included, with their schema
defaults — plus the plaintext password. -/
structure UserCreate where
  email : String
  username : String
  is_active : Bool := true
  is_superuser : Bool := false
  password : String
deriving DecidableEq

/-- Partial patch (app/models `UserUpdate`): `none` models a field absent
from the patch (pydantic `exclude_unset` drops it). -/
structure UserUpdate where
  email : Option String := none
  username : Option String := none
  password : Option String := none
  is_active : Option Bool := none
deriving DecidableEq

/-- The persistence collaborator: the users table as a list of rows in
insertion order (primary key ascending). -/
abbrev DB := List User

/-- app/services/user_service.py `UserService.get_user_by_id`. -/
def get_user_by_id (db : DB) (user_id : Nat) : Option User :=
  db.find? (fun u => u.id == user_id)

/-- app/services/user_service.py `UserService.get_user_by_email`. -/
def get_user_by_email (db : DB) (email : String) : Option User :=
  db.find? (fun u => u.email == email)

/-- app/services/user_service.py `UserService.get_user_by_username`. -/
def get_user_by_username (db : DB) (username : String) : Option User :=
  db.find? (fun u => u.username == username)

/-- app/services/user_service.py `UserService.get_users`: SQL
`OFFSET skip LIMIT limit` over the table; the requested limit is passed
through unchanged. -/
def get_users (db : DB) (skip : Nat) (limit : Nat) : List User :=
  (db.drop skip).take limit

/-- app/services/user_service.py `UserService.create_user`: hashes the
password and inserts a row built from the payload's email, username and
`is_active` flag; `is_superuser`, `created_at` and `updated_at` take the
model defaults, and the primary key is assigned by the database. -/
def create_user (salt : Nat) (now : Nat) (db : DB) (user : UserCreate) : User × DB :=
  let hashed := get_password_hash salt user.password
  let db_user : User :=
    { id := db.length + 1
      email := user.email
      username := user.username
      is_active := user.is_active
      is_superuser := false
      hashed_password := hashed
      created_at := some now
      updated_at := none }
  (db_user, db ++ [db_user])

/-- app/services/user_service.py `UserService.authenticate_user`: looks the
user up by username only, then verifies the password; both failure paths
return `none`. -/
def authenticate_user (db : DB) (username : String) (password : String) : Option User :=
  match get_user_by_username db username with
  | none => none
  | some user =>
    if !(verify_password password user.hashed_password) then none
    else some user

/-- Field application of app/services/user_service.py
`UserService.update_user`: sets exactly the fields present in the patch,
re-hashing a supplied plaintext password into `hashed_password`; no other
field of the row — in particular `updated_at` — is touched. -/
def apply_patch (salt : Nat) (user : User) (patch : UserUpdate) : User :=
  { user with
    email := patch.email.getD user.email
    username := patch.username.getD user.username
    is_active := patch.is_active.getD user.is_active
    hashed_password :=
      match patch.password with
      | some p => get_password_hash salt p
      | none => user.hashed_password }

/-- app/services/user_service.py `UserService.update_user`: `none` when the
id does not exist, otherwise the patched row together with the committed
table. -/
def update_user (salt : Nat) (db : DB) (user_id : Nat) (user_update : UserUpdate) :
    Option User × DB :=
  match get_user_by_id db user_id with
  | none => (none, db)
  | some db_user =>
    let updated := apply_patch salt db_user user_update
    (some updated, db.map (fun u => if u.id == user_id then updated else u))

/-- HTTP-level outcome of app/api/auth.py `login`. -/
inductive LoginResult where
  | success (access_token : Jwt) (token_type : String)
  | unauthorized (detail : String)
deriving DecidableEq

/-- app/api/auth.py `login`: authenticates, answering 401 with one fixed
detail string on any failure, otherwise issuing a bearer token whose
subject is the stored username and whose ttl is the configured
`access_token_expire_minutes`. -/
def login (secret : Nat) (now : Nat) (expire_minutes : Nat) (db : DB)
    (username : String) (password : String) : LoginResult :=
  match authenticate_user db username password with
  | none => .unauthorized "Incorrect username or password"
  | some user =>
    .success (create_access_token secret (some user.username) now
      (some expire_minutes) expire_minutes) "bearer"

/-- The two HTTP 400 conflict answers of app/api/auth.py `register`. -/
inductive RegisterError where
  | emailRegistered
  | usernameTaken
deriving DecidableEq

/-- app/api/auth.py `register`: pre-checks email then username uniqueness
and answers with a conflict before anything is inserted; otherwise creates
the user. -/
def register (salt : Nat) (now : Nat) (db : DB) (user : UserCreate) :
    Except RegisterError User × DB :=
  if (get_user_by_email db user.email).isSome then (.error .emailRegistered, db)
  else if (get_user_by_username db user.username).isSome then (.error .usernameTaken, db)
  else
    let res := create_user salt now db user
    (.ok res.1, res.2)

/-- HTTP-level outcome of the by-id endpoints of app/api/users.py. -/
inductive ReadUserResult where
  | ok (user : User)
  | forbidden
  | notFound
deriving DecidableEq

/-- app/api/users.py `read_user`: a non-superuser asking for an id other
than their own is rejected with 403 before the lookup; then 404 when the id
does not exist. -/
def read_user (db : DB) (user_id : Nat) (current_user : User) : ReadUserResult :=
  if !current_user.is_superuser && current_user.id != user_id then .forbidden
  else
    match get_user_by_id db user_id with
    | none => .notFound
    | some user => .ok user

/-- app/api/users.py `update_user` endpoint: the same self-or-admin gate,
then the service update, 404 when the id does not exist. -/
def update_user_endpoint (salt : Nat) (db : DB) (user_id : Nat)
    (user_update : UserUpdate) (current_user : User) : ReadUserResult × DB :=
  if !current_user.is_superuser && current_user.id != user_id then (.forbidden, db)
  else
    match update_user salt db user_id user_update with
    | (none, db2) => (.notFound, db2)
    | (some user, db2) => (.ok user, db2)

/-- app/dependencies.py `get_current_active_user`: rejects an inactive user
with HTTP 400 after token authentication resolved them. -/
def get_current_active_user (current_user : User) : Except Nat User :=
  if !current_user.is_active then .error 400
  else .ok current_user

/-! Helper lemmas -/

theorem char_toNat_injective : Function.Injective Char.toNat := by
  intro a b h
  apply Char.ext
  apply UInt32.ext
  exact h

theorem get_password_hash_injective (salt : Nat) (p1 p2 : String)
    (h : get_password_hash salt p1 = get_password_hash salt p2) : p1 = p2 := by
  have hval : p1.data.map Char.toNat = p2.data.map Char.toNat := congrArg Digest.val h
  have hdata : p1.data = p2.data := List.map_injective_iff.mpr char_toNat_injective hval
  cases p1
  cases p2
  simp_all

/-! Claim theorems -/

/-- C3: verifying a password against the digest produced by hashing it
returns true, and verifying any distinct password against that digest
returns false (exactly, in the collision-free idealisation of the
hash — the spec's "with overwhelming probability"). -/
theorem password_hash_verify_correct :
    (∀ (salt : Nat) (p : String),
      verify_password p (get_password_hash salt p) = true) ∧
    (∀ (salt : Nat) (p1 p2 : String), p1 ≠ p2 →
      verify_password p1 (get_password_hash salt p2) = false) := by
  constructor
  · intro salt p
    simp [verify_password, get_password_hash]
  · intro salt p1 p2 hne
    have hre : get_password_hash (get_password_hash salt p2).salt p1
        = get_password_hash salt p1 := rfl
    rw [verify_password, hre, beq_eq_false_iff_ne]
    intro heq
    exact hne (get_password_hash_injective salt p1 p2 heq)

/-- Witness for C3 at concrete passwords. -/
theorem password_hash_verify_correct_witness :
    verify_password "pw123456" (get_password_hash 3 "pw123456") = true ∧
    ("wrong" : String) ≠ "pw123456" ∧
    verify_password "wrong" (get_password_hash 3 "pw123456") = false :=
  ⟨password_hash_verify_correct.1 3 "pw123456", by decide,
    password_hash_verify_correct.2 3 "wrong" "pw123456" (by decide)⟩

/-- C1: a token issued for subject s with ttl t verifies to s at any
instant before t has elapsed; a token whose embedded signature does not
match its claimed fields verifies to invalid (`none`), and so does a token
whose expiry lies before the current instant — no subject is ever returned
in either case. -/
theorem token_issue_verify :
    (∀ (secret : Nat) (s : String) (t now0 now1 dflt : Nat),
      0 < t → now1 < now0 + t →
      verify_token secret now1 (create_access_token secret (some s) now0 (some t) dflt)
        = some s) ∧
    (∀ (secret now : Nat) (token : Jwt), token.sig ≠ sign secret token.payload →
      verify_token secret now token = none) ∧
    (∀ (secret now : Nat) (token : Jwt), token.payload.exp < now →
      verify_token secret now token = none) := by
  refine ⟨?_, ?_, ?_⟩
  · intro secret s t now0 now1 dflt ht hlt
    simp only [create_access_token, verify_token, Option.getD_some]
    rw [if_pos trivial, if_neg (by omega)]
  · intro secret now token hne
    rw [verify_token, if_neg hne]
  · intro secret now token hexp
    rw [verify_token]
    by_cases hsig : token.sig = sign secret token.payload
    · rw [if_pos hsig, if_pos hexp]
    · rw [if_neg hsig]

/-- A token whose embedded signature does not match its claimed fields. -/
def tamperedJwt : Jwt := { payload := { sub := some "alice", exp := 50 }, sig := 0 }

/-- A correctly signed token (for secret 5) that expires at instant 3. -/
def expiredJwt : Jwt :=
  { payload := { sub := some "alice", exp := 3 },
    sig := sign 5 { sub := some "alice", exp := 3 } }

/-- Witness for C1 at concrete inputs. -/
theorem token_issue_verify_witness :
    verify_token 5 9 (create_access_token 5 (some "alice") 0 (some 10) 30) = some "alice" ∧
    verify_token 5 7 tamperedJwt = none ∧
    verify_token 5 99 expiredJwt = none :=
  ⟨token_issue_verify.1 5 "alice" 10 0 9 30 (by decide) (by decide),
    token_issue_verify.2.1 5 7 tamperedJwt (by decide),
    token_issue_verify.2.2 5 99 expiredJwt (by decide)⟩

theorem gate_true_iff (u : User) (uid : Nat) :
    (!u.is_superuser && u.id != uid) = true ↔ ¬(u.is_superuser = true ∨ u.id = uid) := by
  cases h : u.is_superuser <;> simp [h, bne_iff_ne]

theorem read_user_forbidden_iff (db : DB) (uid : Nat) (cu : User) :
    read_user db uid cu = .forbidden ↔ (!cu.is_superuser && cu.id != uid) = true := by
  rw [read_user]
  by_cases hc : (!cu.is_superuser && cu.id != uid) = true
  · simp [hc]
  · cases hf : get_user_by_id db uid <;> simp [hc, hf]

theorem update_endpoint_forbidden_iff (salt : Nat) (db : DB) (uid : Nat)
    (patch : UserUpdate) (cu : User) :
    (update_user_endpoint salt db uid patch cu).1 = .forbidden ↔
      (!cu.is_superuser && cu.id != uid) = true := by
  rw [update_user_endpoint]
  by_cases hc : (!cu.is_superuser && cu.id != uid) = true
  · simp [hc]
  · rcases hu : update_user salt db uid patch with ⟨o, db2⟩
    cases o <;> simp [hc, hu]

/-- C2: on both by-id endpoints the permission gate lets the request
through (no 403) exactly when the caller is a superuser or the caller's id
equals the target owner id; every other combination is denied. -/
theorem view_permission_self_or_admin :
    ∀ (db : DB) (salt : Nat) (patch : UserUpdate) (current_user : User) (user_id : Nat),
      (¬ read_user db user_id current_user = .forbidden ↔
        (current_user.is_superuser = true ∨ current_user.id = user_id)) ∧
      (¬ (update_user_endpoint salt db user_id patch current_user).1 = .forbidden ↔
        (current_user.is_superuser = true ∨ current_user.id = user_id)) := by
  intro db salt patch cu uid
  constructor
  · rw [read_user_forbidden_iff, gate_true_iff]
    exact not_not
  · rw [update_endpoint_forbidden_iff, gate_true_iff]
    exact not_not

/-- A stored active user alice with password pw123456 hashed under salt 0. -/
def aliceUser : User :=
  { id := 1
    email := "a@x.com"
    username := "alice"
    is_active := true
    is_superuser := false
    hashed_password := get_password_hash 0 "pw123456"
    created_at := some 0
    updated_at := none }

/-- A one-row table holding alice. -/
def dbOne : DB := [aliceUser]

/-- C4: an authentication attempt with an unknown identifier and one with a
known identifier but failing password verification produce identical
outward results from login: the same 401 with the same detail string. -/
theorem auth_failures_indistinguishable :
    ∀ (secret now ttl : Nat) (db : DB) (n1 p1 n2 p2 : String) (u : User),
      get_user_by_username db n1 = none →
      get_user_by_username db n2 = some u →
      verify_password p2 u.hashed_password = false →
      login secret now ttl db n1 p1 = login secret now ttl db n2 p2 ∧
      login secret now ttl db n1 p1 = .unauthorized "Incorrect username or password" := by
  intro secret now ttl db n1 p1 n2 p2 u h1 h2 h3
  have r1 : login secret now ttl db n1 p1
      = .unauthorized "Incorrect username or password" := by
    simp [login, authenticate_user, h1]
  have r2 : login secret now ttl db n2 p2
      = .unauthorized "Incorrect username or password" := by
    simp [login, authenticate_user, h2, h3]
  exact ⟨r1.trans r2.symm, r1⟩

/-- Witness for C4: unknown user "nobody" and wrong password for stored
user "alice" yield literally the same 401. -/
theorem auth_failures_indistinguishable_witness :
    login 5 0 30 dbOne "nobody" "pw" = login 5 0 30 dbOne "alice" "wrong" ∧
    login 5 0 30 dbOne "nobody" "pw" = .unauthorized "Incorrect username or password" :=
  auth_failures_indistinguishable 5 0 30 dbOne "nobody" "pw" "alice" "wrong" aliceUser
    (by decide) (by decide) (by decide)

/-- C10: for a stored user with is_active = false presenting the correct
password, authentication still succeeds and login still issues a bearer
token; only the token-gated request dependency rejects them (HTTP 400). -/
theorem inactive_user_can_login :
    ∀ (secret now ttl : Nat) (db : DB) (n p : String) (u : User),
      get_user_by_username db n = some u →
      u.is_active = false →
      verify_password p u.hashed_password = true →
      authenticate_user db n p = some u ∧
      login secret now ttl db n p =
        .success (create_access_token secret (some u.username) now (some ttl) ttl) "bearer" ∧
      get_current_active_user u = .error 400 := by
  intro secret now ttl db n p u h1 h2 h3
  have ha : authenticate_user db n p = some u := by
    simp [authenticate_user, h1, h3]
  refine ⟨ha, ?_, ?_⟩
  · simp [login, ha]
  · simp [get_current_active_user, h2]

/-- A stored inactive user carol with password secretpw hashed under
salt 1. -/
def carolUser : User :=
  { id := 2
    email := "c@x.com"
    username := "carol"
    is_active := false
    is_superuser := false
    hashed_password := get_password_hash 1 "secretpw"
    created_at := some 0
    updated_at := none }

/-- A one-row table holding the inactive user carol. -/
def dbInactive : DB := [carolUser]

/-- Witness for C10 at a concrete inactive user. -/
theorem inactive_user_can_login_witness :
    authenticate_user dbInactive "carol" "secretpw" = some carolUser ∧
    login 9 0 30 dbInactive "carol" "secretpw" =
      .success (create_access_token 9 (some "carol") 0 (some 30) 30) "bearer" ∧
    get_current_active_user carolUser = .error 400 :=
  inactive_user_can_login 9 0 30 dbInactive "carol" "secretpw" carolUser
    (by decide) (by decide) (by decide)

/-- C5: a registration whose email or username is already stored fails
with a conflict and leaves the table unchanged (the checks run before the
insert); in particular a second registration with the email of an earlier
successful one fails with a conflict. -/
theorem register_conflict_no_insert :
    (∀ (salt now : Nat) (db : DB) (user : UserCreate),
      ((∃ v ∈ db, v.email = user.email) ∨ (∃ v ∈ db, v.username = user.username)) →
      ∃ e, register salt now db user = (.error e, db)) ∧
    (∀ (salt1 now1 salt2 now2 : Nat) (db db2 : DB) (u1 u2 : UserCreate) (w : User),
      register salt1 now1 db u1 = (.ok w, db2) →
      u2.email = u1.email →
      ∃ e, register salt2 now2 db2 u2 = (.error e, db2)) := by
  constructor
  · intro salt now db user h
    by_cases he : (get_user_by_email db user.email).isSome = true
    · exact ⟨.emailRegistered, by simp [register, he]⟩
    · have hu : (get_user_by_username db user.username).isSome = true := by
        rcases h with ⟨v, hv, hve⟩ | ⟨v, hv, hvu⟩
        · refine absurd ?_ he
          rw [get_user_by_email, List.find?_isSome]
          exact ⟨v, hv, by simp [hve]⟩
        · rw [get_user_by_username, List.find?_isSome]
          exact ⟨v, hv, by simp [hvu]⟩
      exact ⟨.usernameTaken, by simp [register, he, hu]⟩
  · intro salt1 now1 salt2 now2 db db2 u1 u2 w hreg hemail
    by_cases he : (get_user_by_email db u1.email).isSome = true
    · simp [register, he] at hreg
    · by_cases hn : (get_user_by_username db u1.username).isSome = true
      · simp [register, he, hn] at hreg
      · simp [register, he, hn, create_user] at hreg
        obtain ⟨hw, hdb⟩ := hreg
        have hwe : w.email = u1.email := by rw [← hw]
        have hmem : w ∈ db2 := by
          rw [← hdb, hw]
          simp
        have hconf : (get_user_by_email db2 u2.email).isSome = true := by
          rw [get_user_by_email, List.find?_isSome]
          exact ⟨w, hmem, by simp [hwe, hemail]⟩
        exact ⟨.emailRegistered, by simp [register, hconf]⟩

/-- The registration payload of the alice fixture. -/
def ucAlice : UserCreate :=
  { email := "a@x.com", username := "alice", is_active := true,
    is_superuser := false, password := "pw123456" }

/-- The record created by registering alice into an empty table. -/
def regAlice : User := (create_user 0 0 ([] : DB) ucAlice).1

/-- Witness for C5: registering alice into a table already holding her
email conflicts and leaves the table unchanged, and registering the same
payload twice conflicts on the second attempt. -/
theorem register_conflict_no_insert_witness :
    (∃ e, register 0 1 dbOne ucAlice = (.error e, dbOne)) ∧
    (∃ e, register 0 2 [regAlice] ucAlice = (.error e, [regAlice])) :=
  ⟨register_conflict_no_insert.1 0 1 dbOne ucAlice
      (Or.inl ⟨aliceUser, List.mem_singleton.mpr rfl, rfl⟩),
    register_conflict_no_insert.2 0 0 0 2 [] [regAlice] ucAlice ucAlice regAlice
      rfl rfl⟩

/-- Registration payload that asks for is_active = false and
is_superuser = true. -/
def ucBob : UserCreate :=
  { email := "b@x.com", username := "bob", is_active := false,
    is_superuser := true, password := "pw" }

/-- The record created by registering the ucBob payload. -/
def bobUser : User := (create_user 0 7 ([] : DB) ucBob).1

/-- Counterexample to C6: a successful registration whose persisted record
has is_active = false — create_user copies the payload's is_active flag
instead of forcing true. -/
theorem created_flags_counterexample :
    register 0 7 [] ucBob = (.ok bobUser, [bobUser]) ∧ bobUser.is_active = false :=
  ⟨rfl, rfl⟩

/-- C6 amended: a successful registration persists is_superuser = false
(the payload's flag is ignored) and created_at set to the creation time,
but is_active is copied from the payload's is_active flag (whose schema
default is true) rather than forced to true. -/
theorem created_flags_amended :
    ∀ (salt now : Nat) (db db2 : DB) (user : UserCreate) (w : User),
      register salt now db user = (.ok w, db2) →
      w.is_active = user.is_active ∧ w.is_superuser = false ∧
        w.created_at = some now := by
  intro salt now db db2 user w hreg
  by_cases he : (get_user_by_email db user.email).isSome = true
  · simp [register, he] at hreg
  · by_cases hn : (get_user_by_username db user.username).isSome = true
    · simp [register, he, hn] at hreg
    · simp [register, he, hn, create_user] at hreg
      obtain ⟨hw, hdb⟩ := hreg
      rw [← hw]
      exact ⟨rfl, rfl, rfl⟩

/-- Witness for C6 amended, at the ucBob payload. -/
theorem created_flags_amended_witness :
    bobUser.is_active = ucBob.is_active ∧ bobUser.is_superuser = false ∧
      bobUser.created_at = some 7 :=
  created_flags_amended 0 7 [] [bobUser] ucBob bobUser rfl

/-- Row fixture for the pagination scenario. -/
def mkRow (i : Nat) : User :=
  { id := i + 1
    email := ""
    username := ""
    is_active := true
    is_superuser := false
    hashed_password := get_password_hash 0 ""
    created_at := some 0
    updated_at := none }

/-- A table of 101 stored users. -/
def manyUsers : DB := (List.range 101).map mkRow

/-- C7 evaluated at the failing input: with 101 stored users, the list
operation called with skip = 0 and limit = 1000 returns all 101 records —
the caller-requested limit is passed through uncapped, so more than the
documented maximum of 100 records come back. -/
theorem list_limit_uncapped :
    (get_users manyUsers 0 1000).length = 101 ∧
    100 < (get_users manyUsers 0 1000).length := by
  have h : (get_users manyUsers 0 1000).length = 101 := by
    rw [get_users, List.drop_zero, List.take_of_length_le]
    · simp [manyUsers]
    · simp [manyUsers]
  exact ⟨h, by rw [h]; decide⟩

/-- A patch that only changes the username. -/
def patchBobby : UserUpdate := { username := some "bobby" }

/-- C8 evaluated at the failing input: updating stored user 1 (whose
updated_at is null) with a non-empty patch succeeds and applies the patch,
but the returned record still has updated_at = null — update_user never
touches the timestamp. -/
theorem update_does_not_refresh_timestamp :
    ((update_user 0 dbOne 1 patchBobby).1).map (fun u => (u.username, u.updated_at))
      = some ("bobby", none) := by
  decide

/-- C9 evaluated at the failing input: the stored user alice (username
"alice", email "a@x.com", password pw123456) authenticates with her
username, but presenting her email as the identifier is rejected —
authenticate_user looks the identifier up by username only. -/
theorem authenticate_rejects_email_identifier :
    authenticate_user dbOne "alice" "pw123456" = some aliceUser ∧
    authenticate_user dbOne "a@x.com" "pw123456" = none := by
  decide

end GetHeaders
